import Mathlib

/-!
Verification of the digital-gate layer of `qcodes_measurements`
(`qcodes_measurements/device/digital.py`).

The embedding models the gate's observable state (the source's voltage, the
two analog levels, hysteresis, io_mode, lock flag), the raw get/set of
`DigitalGate`, the live-reapply `v_high`/`v_low` setters, the wrapper's
`_set_io_mode` dispatch (with an event trace recording the externally
supplied capability calls `open`/`dac`/`probe`/`ground`), and the
device-wide fan-out of `v_high`/`v_low`.  Voltages are rationals.
-/

/-- The six digital I/O modes (`DigitalMode` in the source). -/
inductive DigitalMode
  | IN
  | OUT
  | PROBE_OUT
  | HIGH
  | LOW
  | GND
deriving DecidableEq

/-- `DigitalMode.OUTPUT_MODES = (OUT, PROBE_OUT, HIGH, LOW)` from the source. -/
def DigitalMode.OUTPUT_MODES : List DigitalMode :=
  [DigitalMode.OUT, DigitalMode.PROBE_OUT, DigitalMode.HIGH, DigitalMode.LOW]

/-- `DigitalMode.INPUT_MODES = (IN, GND)` from the source. -/
def DigitalMode.INPUT_MODES : List DigitalMode :=
  [DigitalMode.IN, DigitalMode.GND]

/-- Observable state of a `DigitalGate` together with its voltage source:
`source_voltage` is the value held by `self.source.voltage`, the other
fields are the gate's own attributes (`_v_high`, `_v_low`, `v_hist`,
`io_mode`, `lock`). -/
structure DigitalGate where
  source_voltage : ℚ
  v_high : ℚ
  v_low : ℚ
  v_hist : ℚ
  io_mode : DigitalMode
  lock : Bool
deriving DecidableEq

/-- Python truthiness of the values flowing into `set_raw` (integers here:
`0` is falsy, any nonzero value, including `-1`, is truthy). -/
def truthy (v : ℤ) : Bool := v != 0

/-- `DigitalGate.get_raw`: 1 if the source voltage is within `v_hist` of
`v_high`, else 0 if within `v_hist` of `v_low`, else -1. -/
def DigitalGate.get_raw (g : DigitalGate) : ℤ :=
  if |g.source_voltage - g.v_high| < g.v_hist then 1
  else if |g.source_voltage - g.v_low| < g.v_hist then 0
  else -1

/-- `DigitalGate.set_raw`: no-op when locked, otherwise drive the source to
`v_high` when the value is truthy and to `v_low` otherwise. -/
def DigitalGate.set_raw (g : DigitalGate) (value : ℤ) : DigitalGate :=
  if g.lock then g
  else if truthy value then { g with source_voltage := g.v_high }
  else { g with source_voltage := g.v_low }

/-- The `v_high` property setter: store the new level, save and clear
`lock`, re-apply the current logical value (`self(self())`) when in an
output mode, and restore the saved `lock`. -/
def DigitalGate.set_v_high (g : DigitalGate) (val : ℚ) : DigitalGate :=
  let g1 : DigitalGate := { g with v_high := val }
  let lock := g1.lock
  let g2 : DigitalGate := { g1 with lock := false }
  let g3 : DigitalGate :=
    if g2.io_mode ∈ DigitalMode.OUTPUT_MODES then g2.set_raw g2.get_raw else g2
  { g3 with lock := lock }

/-- The `v_low` property setter, symmetric to `set_v_high`. -/
def DigitalGate.set_v_low (g : DigitalGate) (val : ℚ) : DigitalGate :=
  let g1 : DigitalGate := { g with v_low := val }
  let lock := g1.lock
  let g2 : DigitalGate := { g1 with lock := false }
  let g3 : DigitalGate :=
    if g2.io_mode ∈ DigitalMode.OUTPUT_MODES then g2.set_raw g2.get_raw else g2
  { g3 with lock := lock }

/-- The four capability operations supplied by the external channel
abstraction (`open`, `dac`, `probe`, `ground`). -/
inductive Cap
  | openC
  | dacC
  | probeC
  | groundC
deriving DecidableEq

/-- Observable steps performed by the wrapper's `_set_io_mode`:
lock updates, capability calls, writes through the `out` parameter, and the
final store of the mode on the wrapped gate. -/
inductive Event
  | lockSet (b : Bool)
  | cap (c : Cap)
  | writeOut (v : ℤ)
  | storeMode (m : DigitalMode)
deriving DecidableEq

/-- `DigitalGateWrapper._set_io_mode`: clear `lock`, dispatch on the mode
(calling the mode's capability, and for HIGH/LOW also writing the logical
value through `out` and re-locking), then store the mode on the wrapped
gate.  Returns the new gate state and the trace of steps performed. -/
def DigitalGateWrapper.set_io_mode (g : DigitalGate) (val : DigitalMode) :
    DigitalGate × List Event :=
  let g1 : DigitalGate := { g with lock := false }
  let step : DigitalGate × List Event :=
    match val with
    | DigitalMode.IN => (g1, [Event.cap Cap.openC])
    | DigitalMode.OUT => (g1, [Event.cap Cap.dacC])
    | DigitalMode.PROBE_OUT => (g1, [Event.cap Cap.probeC])
    | DigitalMode.HIGH =>
        ({ g1.set_raw 1 with lock := true },
         [Event.cap Cap.dacC, Event.writeOut 1, Event.lockSet true])
    | DigitalMode.LOW =>
        ({ g1.set_raw 0 with lock := true },
         [Event.cap Cap.dacC, Event.writeOut 0, Event.lockSet true])
    | DigitalMode.GND => (g1, [Event.cap Cap.groundC])
  ({ step.1 with io_mode := val },
   Event.lockSet false :: step.2 ++ [Event.storeMode val])

/-- The single capability invoked by each mode's dispatch branch. -/
def modeCap : DigitalMode → Cap
  | DigitalMode.IN => Cap.openC
  | DigitalMode.OUT => Cap.dacC
  | DigitalMode.PROBE_OUT => Cap.probeC
  | DigitalMode.HIGH => Cap.dacC
  | DigitalMode.LOW => Cap.dacC
  | DigitalMode.GND => Cap.groundC

/-- `_set_io_mode` with fallible capability calls: `fail c = true` means the
external call `c` raises.  A failure propagates (as `Except.error`),
carrying the capability that failed and the state at that point: the lock
clear already performed is not rolled back and `io_mode` is not updated. -/
def DigitalGateWrapper.set_io_mode_f (fail : Cap → Bool) (g : DigitalGate)
    (val : DigitalMode) : Except (Cap × DigitalGate) DigitalGate :=
  let g1 : DigitalGate := { g with lock := false }
  match val with
  | DigitalMode.IN =>
      if fail Cap.openC then Except.error (Cap.openC, g1)
      else Except.ok { g1 with io_mode := val }
  | DigitalMode.OUT =>
      if fail Cap.dacC then Except.error (Cap.dacC, g1)
      else Except.ok { g1 with io_mode := val }
  | DigitalMode.PROBE_OUT =>
      if fail Cap.probeC then Except.error (Cap.probeC, g1)
      else Except.ok { g1 with io_mode := val }
  | DigitalMode.HIGH =>
      if fail Cap.dacC then Except.error (Cap.dacC, g1)
      else Except.ok { g1.set_raw 1 with lock := true, io_mode := val }
  | DigitalMode.LOW =>
      if fail Cap.dacC then Except.error (Cap.dacC, g1)
      else Except.ok { g1.set_raw 0 with lock := true, io_mode := val }
  | DigitalMode.GND =>
      if fail Cap.groundC then Except.error (Cap.groundC, g1)
      else Except.ok { g1 with io_mode := val }

/-- Error kinds of the wrapper parameter layer. -/
inductive QcodesError
  | InvalidArgument
deriving DecidableEq

/-- A value offered to the wrapper's `io_mode` parameter: either one of the
six members of the closed enumeration, or anything else. -/
inductive ModeInput
  | mode (m : DigitalMode)
  | other (s : String)
deriving DecidableEq

/-- Modelled from the spec: the wrapper declares its `io_mode` parameter
with `vals=Enum(*DigitalMode)`; the validation itself is performed by the
external qcodes `Parameter` machinery (not part of this repository), which
rejects any value outside the closed enumeration with an invalid-argument
error before the set command `_set_io_mode` runs.  On a valid member the
set command runs as embedded in `DigitalGateWrapper.set_io_mode`.  Returns
the resulting gate state, the trace of steps performed, and the error if
any. -/
def ioModeParamSet (g : DigitalGate) (v : ModeInput) :
    (DigitalGate × List Event) × Option QcodesError :=
  match v with
  | ModeInput.mode m => (DigitalGateWrapper.set_io_mode g m, none)
  | ModeInput.other _ => ((g, []), some QcodesError.InvalidArgument)

/-- Observable state of a `DigitalDevice`: its registered digital gate
wrappers in registration order and its stored defaults `_v_high`, `_v_low`. -/
structure DigitalDevice where
  digital_gates : List DigitalGate
  _v_high : ℚ
  _v_low : ℚ
deriving DecidableEq

/-- The device `v_high` parameter's getter (`partial(getattr, self, "_v_high")`). -/
def DigitalDevice.v_high (d : DigitalDevice) : ℚ := d._v_high

/-- The device `v_low` parameter's getter (`partial(getattr, self, "_v_low")`). -/
def DigitalDevice.v_low (d : DigitalDevice) : ℚ := d._v_low

/-- `DigitalDevice._update_vhigh`: set every registered gate's `v_high` to
the new value in registration order, then store the device default. -/
def DigitalDevice._update_vhigh (d : DigitalDevice) (new_val : ℚ) : DigitalDevice :=
  { d with digital_gates := d.digital_gates.map (fun g => g.set_v_high new_val),
           _v_high := new_val }

/-- `DigitalDevice._update_vlow`: set every registered gate's `v_low` to
the new value in registration order, then store the device default. -/
def DigitalDevice._update_vlow (d : DigitalDevice) (new_val : ℚ) : DigitalDevice :=
  { d with digital_gates := d.digital_gates.map (fun g => g.set_v_low new_val),
           _v_low := new_val }

/-! ### Frame lemmas -/

theorem DigitalGate.set_raw_frame (g : DigitalGate) (v : ℤ) :
    (g.set_raw v).v_high = g.v_high ∧ (g.set_raw v).v_low = g.v_low ∧
    (g.set_raw v).v_hist = g.v_hist ∧ (g.set_raw v).io_mode = g.io_mode ∧
    (g.set_raw v).lock = g.lock := by
  unfold DigitalGate.set_raw
  split_ifs <;> exact ⟨rfl, rfl, rfl, rfl, rfl⟩

theorem DigitalGate.set_v_high_out_eq (g : DigitalGate) (val : ℚ)
    (h : g.io_mode ∈ DigitalMode.OUTPUT_MODES) :
    g.set_v_high val =
      { g with
          v_high := val,
          source_voltage :=
            (if truthy (DigitalGate.get_raw { g with v_high := val }) then val
             else g.v_low) } := by
  obtain ⟨sv, vh, vl, hs, io, lk⟩ := g
  simp [DigitalGate.set_v_high, DigitalGate.set_raw, DigitalGate.get_raw, h]
  split_ifs <;> simp_all

theorem DigitalGate.set_v_low_out_eq (g : DigitalGate) (val : ℚ)
    (h : g.io_mode ∈ DigitalMode.OUTPUT_MODES) :
    g.set_v_low val =
      { g with
          v_low := val,
          source_voltage :=
            (if truthy (DigitalGate.get_raw { g with v_low := val }) then g.v_high
             else val) } := by
  obtain ⟨sv, vh, vl, hs, io, lk⟩ := g
  simp [DigitalGate.set_v_low, DigitalGate.set_raw, DigitalGate.get_raw, h]
  split_ifs <;> simp_all

theorem DigitalGate.set_v_high_in_eq (g : DigitalGate) (val : ℚ)
    (h : g.io_mode ∉ DigitalMode.OUTPUT_MODES) :
    g.set_v_high val = { g with v_high := val } := by
  obtain ⟨sv, vh, vl, hs, io, lk⟩ := g
  simp only [DigitalGate.set_v_high] at h ⊢
  rw [if_neg h]

theorem DigitalGate.set_v_low_in_eq (g : DigitalGate) (val : ℚ)
    (h : g.io_mode ∉ DigitalMode.OUTPUT_MODES) :
    g.set_v_low val = { g with v_low := val } := by
  obtain ⟨sv, vh, vl, hs, io, lk⟩ := g
  simp only [DigitalGate.set_v_low] at h ⊢
  rw [if_neg h]

theorem DigitalGate.set_v_high_v_high (g : DigitalGate) (val : ℚ) :
    (g.set_v_high val).v_high = val := by
  by_cases h : g.io_mode ∈ DigitalMode.OUTPUT_MODES
  · rw [DigitalGate.set_v_high_out_eq g val h]
  · rw [DigitalGate.set_v_high_in_eq g val h]

theorem DigitalGate.set_v_low_v_low (g : DigitalGate) (val : ℚ) :
    (g.set_v_low val).v_low = val := by
  by_cases h : g.io_mode ∈ DigitalMode.OUTPUT_MODES
  · rw [DigitalGate.set_v_low_out_eq g val h]
  · rw [DigitalGate.set_v_low_in_eq g val h]

/-! ### Claim theorems -/

/-- C2: `read()` returns HIGH (1) when the source voltage is within
hysteresis of `v_high`, otherwise LOW (0) when within hysteresis of
`v_low`, otherwise UNDEFINED (-1); the HIGH test is evaluated first, so a
voltage within hysteresis of both setpoints resolves to HIGH. -/
theorem read_tristate (g : DigitalGate) :
    (|g.source_voltage - g.v_high| < g.v_hist → g.get_raw = 1) ∧
    (g.v_hist ≤ |g.source_voltage - g.v_high| →
      |g.source_voltage - g.v_low| < g.v_hist → g.get_raw = 0) ∧
    (g.v_hist ≤ |g.source_voltage - g.v_high| →
      g.v_hist ≤ |g.source_voltage - g.v_low| → g.get_raw = -1) ∧
    (|g.source_voltage - g.v_high| < g.v_hist →
      |g.source_voltage - g.v_low| < g.v_hist → g.get_raw = 1) := by
  refine ⟨fun h1 => ?_, fun h1 h2 => ?_, fun h1 h2 => ?_, fun h1 _ => ?_⟩
  · simp [DigitalGate.get_raw, h1]
  · simp [DigitalGate.get_raw, not_lt.mpr h1, h2]
  · simp [DigitalGate.get_raw, not_lt.mpr h1, not_lt.mpr h2]
  · simp [DigitalGate.get_raw, h1]

/-- C2 witness: with `v_high=1`, `v_low=0`, `hysteresis=1/5`, a source
voltage of `19/20` (0.95) reads 1 (HIGH) and `1/2` (0.5) reads -1
(UNDEFINED). -/
theorem read_tristate_witness :
    |(19 : ℚ)/20 - 1| < 1/5 ∧
    (⟨19/20, 1, 0, 1/5, DigitalMode.OUT, false⟩ : DigitalGate).get_raw = 1 ∧
    (1 : ℚ)/5 ≤ |(1 : ℚ)/2 - 1| ∧ (1 : ℚ)/5 ≤ |(1 : ℚ)/2 - 0| ∧
    (⟨1/2, 1, 0, 1/5, DigitalMode.OUT, false⟩ : DigitalGate).get_raw = -1 :=
  ⟨by norm_num [abs_lt],
   (read_tristate ⟨19/20, 1, 0, 1/5, DigitalMode.OUT, false⟩).1
     (by norm_num [abs_lt]),
   by norm_num [le_abs],
   by norm_num [le_abs],
   (read_tristate ⟨1/2, 1, 0, 1/5, DigitalMode.OUT, false⟩).2.2.1
     (by norm_num [le_abs]) (by norm_num [le_abs])⟩

/-- C3: `write(value)` leaves the gate (in particular the source voltage)
unchanged when `lock` is true; when unlocked it drives the source to
exactly `v_high` for a true value and to exactly `v_low` for a false
value. -/
theorem write_respects_lock (g : DigitalGate) (value : Bool) :
    (g.lock = true → g.set_raw (if value then 1 else 0) = g) ∧
    (g.lock = false →
      (g.set_raw (if value then 1 else 0)).source_voltage =
        (if value then g.v_high else g.v_low)) := by
  constructor
  · intro h
    simp [DigitalGate.set_raw, h]
  · intro h
    cases value <;> simp [DigitalGate.set_raw, truthy, h]

/-- C3 witness: a locked gate is unchanged by `write(true)`; an unlocked
gate is driven to `v_high` by `write(true)` and to `v_low` by
`write(false)`. -/
theorem write_respects_lock_witness :
    ((⟨5, 1, 0, 1/5, DigitalMode.OUT, true⟩ : DigitalGate).lock = true ∧
      (⟨5, 1, 0, 1/5, DigitalMode.OUT, true⟩ : DigitalGate).set_raw 1 =
        ⟨5, 1, 0, 1/5, DigitalMode.OUT, true⟩) ∧
    ((⟨5, 1, 0, 1/5, DigitalMode.OUT, false⟩ : DigitalGate).lock = false ∧
      ((⟨5, 1, 0, 1/5, DigitalMode.OUT, false⟩ : DigitalGate).set_raw 1).source_voltage = 1 ∧
      ((⟨5, 1, 0, 1/5, DigitalMode.OUT, false⟩ : DigitalGate).set_raw 0).source_voltage = 0) :=
  ⟨⟨rfl, by
      have h := (write_respects_lock ⟨5, 1, 0, 1/5, DigitalMode.OUT, true⟩ true).1 rfl
      simpa using h⟩,
   ⟨rfl, by
      have h := (write_respects_lock ⟨5, 1, 0, 1/5, DigitalMode.OUT, false⟩ true).2 rfl
      simpa using h,
    by
      have h := (write_respects_lock ⟨5, 1, 0, 1/5, DigitalMode.OUT, false⟩ false).2 rfl
      simpa using h⟩⟩

/-- C4 counterexample: the claim quantifies over every hysteresis ≥ 0, but
with hysteresis exactly 0 an unlocked gate that performs `write(true)`
then `read()` returns -1 (UNDEFINED), not 1 (HIGH), since
`|v_high - v_high| < 0` is false. -/
theorem write_then_read_counterexample :
    ¬ (∀ g : DigitalGate, g.lock = false → 0 ≤ g.v_hist →
        (g.set_raw 1).get_raw = 1) := by
  intro hall
  have h := hall ⟨0, 1, 0, 0, DigitalMode.OUT, false⟩ rfl le_rfl
  norm_num [DigitalGate.set_raw, DigitalGate.get_raw, truthy] at h

/-- C4 amended: for every unlocked gate with strictly positive hysteresis,
`write(true)` followed by `read()` returns 1 (HIGH). -/
theorem write_then_read_high (g : DigitalGate) (hl : g.lock = false)
    (hh : 0 < g.v_hist) : (g.set_raw 1).get_raw = 1 := by
  simp [DigitalGate.set_raw, DigitalGate.get_raw, truthy, hl, hh]

/-- C4 amended witness: an unlocked gate with hysteresis 1/5 reads 1 after
`write(true)`. -/
theorem write_then_read_high_witness :
    (⟨5, 1, 0, 1/5, DigitalMode.OUT, false⟩ : DigitalGate).lock = false ∧
    (0 : ℚ) < 1/5 ∧
    ((⟨5, 1, 0, 1/5, DigitalMode.OUT, false⟩ : DigitalGate).set_raw 1).get_raw = 1 :=
  ⟨rfl, by norm_num,
   write_then_read_high ⟨5, 1, 0, 1/5, DigitalMode.OUT, false⟩ rfl (by norm_num)⟩

/-- C6: any value outside the six `DigitalMode` members offered to the
wrapper's `io_mode` parameter is rejected with `InvalidArgument`: no
capability call executes (empty trace) and the gate, its stored `io_mode`
included, is unchanged. -/
theorem io_mode_invalid_rejected (g : DigitalGate) (s : String) :
    ioModeParamSet g (ModeInput.other s) =
      ((g, []), some QcodesError.InvalidArgument) := rfl

/-- C9: when `io_mode` is not an output mode, the `v_high`/`v_low` setters
change only the stored level: the source voltage is untouched and the lock
flag ends up equal to its prior value. -/
theorem set_level_input_frame (g : DigitalGate) (val : ℚ)
    (h : g.io_mode ∉ DigitalMode.OUTPUT_MODES) :
    g.set_v_high val = { g with v_high := val } ∧
    g.set_v_low val = { g with v_low := val } :=
  ⟨DigitalGate.set_v_high_in_eq g val h, DigitalGate.set_v_low_in_eq g val h⟩

/-- C9 witness: a locked gate in mode IN keeps its source voltage and lock
across a `v_high` and a `v_low` update. -/
theorem set_level_input_frame_witness :
    (DigitalMode.IN ∉ DigitalMode.OUTPUT_MODES) ∧
    (⟨5, 1, 0, 1/5, DigitalMode.IN, true⟩ : DigitalGate).set_v_high 2 =
      ⟨5, 2, 0, 1/5, DigitalMode.IN, true⟩ ∧
    (⟨5, 1, 0, 1/5, DigitalMode.IN, true⟩ : DigitalGate).set_v_low 2 =
      ⟨5, 1, 2, 1/5, DigitalMode.IN, true⟩ :=
  ⟨by decide,
   (set_level_input_frame ⟨5, 1, 0, 1/5, DigitalMode.IN, true⟩ 2 (by decide)).1,
   (set_level_input_frame ⟨5, 1, 0, 1/5, DigitalMode.IN, true⟩ 2 (by decide)).2⟩

/-- C1: for every mode, `_set_io_mode` first clears the lock, then performs
exactly the mode's dispatch steps (IN→open, OUT→dac, PROBE_OUT→probe,
HIGH→dac then write 1 then lock, LOW→dac then write 0 then lock,
GND→ground), and finally stores the mode on the wrapped gate. -/
theorem set_io_mode_dispatch (g : DigitalGate) (m : DigitalMode) :
    (DigitalGateWrapper.set_io_mode g m).2 =
      Event.lockSet false ::
        (match m with
         | DigitalMode.IN => [Event.cap Cap.openC]
         | DigitalMode.OUT => [Event.cap Cap.dacC]
         | DigitalMode.PROBE_OUT => [Event.cap Cap.probeC]
         | DigitalMode.HIGH =>
             [Event.cap Cap.dacC, Event.writeOut 1, Event.lockSet true]
         | DigitalMode.LOW =>
             [Event.cap Cap.dacC, Event.writeOut 0, Event.lockSet true]
         | DigitalMode.GND => [Event.cap Cap.groundC]) ++
        [Event.storeMode m] ∧
    (DigitalGateWrapper.set_io_mode g m).1.io_mode = m := by
  cases m <;> exact ⟨rfl, rfl⟩

/-- C5: with `io_mode` in OUTPUT_MODES, setting `v_high` (resp. `v_low`)
stores the new level, re-writes the logical value read at the new level
even if the gate was locked, and restores the prior lock; in particular
with `io_mode = OUT` and logical value 1 the source is redriven to the new
`v_high`. -/
theorem set_level_reapplies (g : DigitalGate) (val : ℚ)
    (h : g.io_mode ∈ DigitalMode.OUTPUT_MODES) :
    ((g.set_v_high val).v_high = val ∧
     (g.set_v_high val).lock = g.lock ∧
     (g.set_v_high val).source_voltage =
       (if truthy (DigitalGate.get_raw { g with v_high := val }) then val
        else g.v_low)) ∧
    ((g.set_v_low val).v_low = val ∧
     (g.set_v_low val).lock = g.lock ∧
     (g.set_v_low val).source_voltage =
       (if truthy (DigitalGate.get_raw { g with v_low := val }) then g.v_high
        else val)) ∧
    (g.io_mode = DigitalMode.OUT →
      DigitalGate.get_raw { g with v_high := val } = 1 →
      (g.set_v_high val).source_voltage = val) := by
  rw [DigitalGate.set_v_high_out_eq g val h, DigitalGate.set_v_low_out_eq g val h]
  refine ⟨⟨rfl, rfl, rfl⟩, ⟨rfl, rfl, rfl⟩, fun _ hr => ?_⟩
  simp [hr, truthy]

/-- C5 witness: a locked gate in mode OUT at source voltage 19/20 with
levels 1/0 and hysteresis 1/5: setting `v_high` to 11/10 stores 11/10,
redrives the source to 11/10 (the read at the new level is 1), and leaves
the lock true as before. -/
theorem set_level_reapplies_witness :
    DigitalMode.OUT ∈ DigitalMode.OUTPUT_MODES ∧
    DigitalGate.get_raw ⟨19/20, 11/10, 0, 1/5, DigitalMode.OUT, true⟩ = 1 ∧
    ((⟨19/20, 1, 0, 1/5, DigitalMode.OUT, true⟩ : DigitalGate).set_v_high
        (11/10)).v_high = 11/10 ∧
    ((⟨19/20, 1, 0, 1/5, DigitalMode.OUT, true⟩ : DigitalGate).set_v_high
        (11/10)).lock = true ∧
    ((⟨19/20, 1, 0, 1/5, DigitalMode.OUT, true⟩ : DigitalGate).set_v_high
        (11/10)).source_voltage = 11/10 := by
  have hr : DigitalGate.get_raw ⟨19/20, 11/10, 0, 1/5, DigitalMode.OUT, true⟩ = 1 := by
    rw [DigitalGate.get_raw]
    rw [if_pos (by norm_num [abs_lt])]
  have h := set_level_reapplies ⟨19/20, 1, 0, 1/5, DigitalMode.OUT, true⟩ (11/10)
    (by decide)
  exact ⟨by decide, hr, h.1.1, h.1.2.1, h.2.2 rfl hr⟩

/-- C7: if the mode's single capability call fails, `_set_io_mode`
propagates the failure: the lock clear already performed is not rolled
back and the stored `io_mode` is unchanged; if the capability call
succeeds, the transition completes exactly as the infallible dispatch,
which stores the new mode. -/
theorem set_io_mode_failure_semantics (fail : Cap → Bool) (g : DigitalGate)
    (m : DigitalMode) :
    (fail (modeCap m) = true →
      DigitalGateWrapper.set_io_mode_f fail g m =
        Except.error (modeCap m, { g with lock := false })) ∧
    (fail (modeCap m) = false →
      DigitalGateWrapper.set_io_mode_f fail g m =
        Except.ok (DigitalGateWrapper.set_io_mode g m).1) := by
  cases m <;> refine ⟨fun h => ?_, fun h => ?_⟩ <;> simp only [modeCap] at h <;>
    simp [DigitalGateWrapper.set_io_mode_f, DigitalGateWrapper.set_io_mode,
      modeCap, h]

/-- C7 witness: with a `dac` call that fails, switching a locked gate to
OUT propagates the error with the lock cleared and `io_mode` still IN;
with no failing capability the same transition succeeds and stores OUT. -/
theorem set_io_mode_failure_semantics_witness :
    (fun c => c == Cap.dacC) (modeCap DigitalMode.OUT) = true ∧
    DigitalGateWrapper.set_io_mode_f (fun c => c == Cap.dacC)
        ⟨0, 1, 0, 1/5, DigitalMode.IN, true⟩ DigitalMode.OUT =
      Except.error (Cap.dacC, ⟨0, 1, 0, 1/5, DigitalMode.IN, false⟩) ∧
    DigitalGateWrapper.set_io_mode_f (fun _ => false)
        ⟨0, 1, 0, 1/5, DigitalMode.IN, true⟩ DigitalMode.OUT =
      Except.ok (DigitalGateWrapper.set_io_mode
        ⟨0, 1, 0, 1/5, DigitalMode.IN, true⟩ DigitalMode.OUT).1 :=
  ⟨rfl,
   (set_io_mode_failure_semantics (fun c => c == Cap.dacC)
      ⟨0, 1, 0, 1/5, DigitalMode.IN, true⟩ DigitalMode.OUT).1 rfl,
   (set_io_mode_failure_semantics (fun _ => false)
      ⟨0, 1, 0, 1/5, DigitalMode.IN, true⟩ DigitalMode.OUT).2 rfl⟩

/-- C8: a device-wide `v_high` update maps every registered gate (in
registration order) through its own `v_high` setter, so afterwards every
registered gate's `v_high` equals the new value and the device getter
returns it; symmetrically for `v_low`. -/
theorem device_level_fanout (d : DigitalDevice) (X : ℚ) :
    ((d._update_vhigh X).digital_gates =
        d.digital_gates.map (fun g => g.set_v_high X)) ∧
    (∀ g ∈ (d._update_vhigh X).digital_gates, g.v_high = X) ∧
    (d._update_vhigh X).v_high = X ∧
    ((d._update_vlow X).digital_gates =
        d.digital_gates.map (fun g => g.set_v_low X)) ∧
    (∀ g ∈ (d._update_vlow X).digital_gates, g.v_low = X) ∧
    (d._update_vlow X).v_low = X := by
  refine ⟨rfl, ?_, rfl, rfl, ?_, rfl⟩
  · intro g hg
    simp only [DigitalDevice._update_vhigh, List.mem_map] at hg
    obtain ⟨g0, _, rfl⟩ := hg
    exact DigitalGate.set_v_high_v_high g0 X
  · intro g hg
    simp only [DigitalDevice._update_vlow, List.mem_map] at hg
    obtain ⟨g0, _, rfl⟩ := hg
    exact DigitalGate.set_v_low_v_low g0 X

/-- C8 witness: a device with one registered gate (mode IN, levels 1/0):
setting the device `v_high` to 2 yields a gate list whose only gate has
`v_high = 2`, and the device getter returns 2; likewise `v_low` set to 2. -/
theorem device_level_fanout_witness :
    ((⟨[⟨0, 1, 0, 1/5, DigitalMode.IN, false⟩], 9/5, 0⟩ :
        DigitalDevice)._update_vhigh 2).digital_gates =
      [⟨0, 2, 0, 1/5, DigitalMode.IN, false⟩] ∧
    (⟨0, 2, 0, 1/5, DigitalMode.IN, false⟩ : DigitalGate).v_high = 2 ∧
    ((⟨[⟨0, 1, 0, 1/5, DigitalMode.IN, false⟩], 9/5, 0⟩ :
        DigitalDevice)._update_vhigh 2).v_high = 2 ∧
    ((⟨[⟨0, 1, 0, 1/5, DigitalMode.IN, false⟩], 9/5, 0⟩ :
        DigitalDevice)._update_vlow 2).v_low = 2 := by
  have h := device_level_fanout
    (⟨[⟨0, 1, 0, 1/5, DigitalMode.IN, false⟩], 9/5, 0⟩ : DigitalDevice) 2
  have hlist : ((⟨[⟨0, 1, 0, 1/5, DigitalMode.IN, false⟩], 9/5, 0⟩ :
      DigitalDevice)._update_vhigh 2).digital_gates =
      [⟨0, 2, 0, 1/5, DigitalMode.IN, false⟩] := by
    rw [h.1, List.map_cons, List.map_nil,
      DigitalGate.set_v_high_in_eq _ _ (by decide)]
  refine ⟨hlist, ?_, h.2.2.1, h.2.2.2.2.2⟩
  exact h.2.1 ⟨0, 2, 0, 1/5, DigitalMode.IN, false⟩ (hlist ▸ List.mem_singleton.mpr rfl)

/-- C10: with `io_mode` in OUTPUT_MODES, when the readback at the freshly
stored level is -1 (UNDEFINED), the re-apply writes that -1 back, and
since -1 is truthy the source is driven to `v_high` (the new value for a
`v_high` update, the unchanged `v_high` for a `v_low` update). -/
theorem set_level_undefined_coerces_high (g : DigitalGate) (val : ℚ)
    (h : g.io_mode ∈ DigitalMode.OUTPUT_MODES) :
    (DigitalGate.get_raw { g with v_high := val } = -1 →
      (g.set_v_high val).source_voltage = val) ∧
    (DigitalGate.get_raw { g with v_low := val } = -1 →
      (g.set_v_low val).source_voltage = g.v_high) := by
  constructor
  · intro hr
    rw [DigitalGate.set_v_high_out_eq g val h]
    simp [hr, truthy]
  · intro hr
    rw [DigitalGate.set_v_low_out_eq g val h]
    simp [hr, truthy]

/-- C10 witness: gate in mode OUT with source voltage 5 (within hysteresis
of neither level): setting `v_high` to 1 drives the source to 1 (the new
`v_high`); setting `v_low` to 1 drives the source to `v_high` = 1. -/
theorem set_level_undefined_coerces_high_witness :
    DigitalMode.OUT ∈ DigitalMode.OUTPUT_MODES ∧
    DigitalGate.get_raw ⟨5, 1, 0, 1/5, DigitalMode.OUT, false⟩ = -1 ∧
    ((⟨5, 1, 0, 1/5, DigitalMode.OUT, false⟩ : DigitalGate).set_v_high
        1).source_voltage = 1 ∧
    DigitalGate.get_raw ⟨5, 1, 1, 1/5, DigitalMode.OUT, false⟩ = -1 ∧
    ((⟨5, 1, 0, 1/5, DigitalMode.OUT, false⟩ : DigitalGate).set_v_low
        1).source_voltage = 1 := by
  have hr1 : DigitalGate.get_raw ⟨5, 1, 0, 1/5, DigitalMode.OUT, false⟩ = -1 := by
    rw [DigitalGate.get_raw]
    rw [if_neg (by norm_num [abs_lt]), if_neg (by norm_num [abs_lt])]
  have hr2 : DigitalGate.get_raw ⟨5, 1, 1, 1/5, DigitalMode.OUT, false⟩ = -1 := by
    rw [DigitalGate.get_raw]
    rw [if_neg (by norm_num [abs_lt]), if_neg (by norm_num [abs_lt])]
  have h := set_level_undefined_coerces_high
    ⟨5, 1, 0, 1/5, DigitalMode.OUT, false⟩ 1 (by decide)
  exact ⟨by decide, hr1, h.1 hr1, hr2, h.2 hr2⟩
